import Mathlib

/-
Verification development for the lightofdata/website client-side state managers.

The repository has three small managers: a cookie-consent manager (implemented
inline in src/src/test/projects.test.js, inside initCookieConsent), a theme
manager (src/src/theme.js) and a mobile-navigation manager (src/src/navigation.js).
Each is embedded below as pure Lean functions over explicit state:

  - localStorage holds at most one value per key, modelled as Option;
  - a stored string either fails JSON.parse or yields an object whose fields
    may each be absent (JavaScript undefined), modelled as Option fields;
  - JSON.stringify followed by JSON.parse is the identity on the records the
    code writes, so a well-formed stored value carries the record directly;
  - thrown-and-caught exceptions are modelled with Except: the body of each
    try block is a separate function whose errors the outer definition catches;
  - DOM elements that may be missing are modelled as Option (none = absent).
-/

namespace Website

/-! ## Consent manager (initCookieConsent in src/src/test/projects.test.js) -/

/-- COOKIE_CONSENT_VERSION in projects.test.js. -/
def COOKIE_CONSENT_VERSION : String := "1.0"

/-- A JSON object as the consent code reads it: each field access can yield
JavaScript undefined, hence Option. `timestamp` is a number (Date.now()),
`version` a string, the three flags booleans. -/
structure ParsedPrefs where
  version : Option String
  timestamp : Option Nat
  analytics : Option Bool
  marketing : Option Bool
  essential : Option Bool
deriving DecidableEq, Repr

/-- A value sitting in localStorage under the consent key: either a string
that JSON.parse rejects, or one that parses to an object. -/
inductive StoredVal where
  | malformed
  | json (p : ParsedPrefs)
deriving DecidableEq, Repr

/-- JSON.parse on the stored string: throws (Except.error) on malformed input,
otherwise yields the parsed object. -/
def jsonParse : StoredVal → Except Unit ParsedPrefs
  | .malformed => .error ()
  | .json p => .ok p

/-- JavaScript double-negation !!x on a possibly-undefined number:
undefined is falsy, 0 is falsy, any other number is truthy. -/
def truthyNum : Option Nat → Bool
  | none => false
  | some n => n != 0

/-- JavaScript truthiness of a possibly-undefined boolean:
undefined is falsy. -/
def truthyBool : Option Bool → Bool
  | none => false
  | some b => b

/-- Body of the try block of hasValidConsent: read the key, return false if
nothing is stored, otherwise parse (which may throw) and check
`preferences.version === COOKIE_CONSENT_VERSION && !!preferences.timestamp`. -/
def hasValidConsentTry (store : Option StoredVal) : Except Unit Bool :=
  match store with
  | none => .ok false
  | some stored => do
    let preferences ← jsonParse stored
    .ok (decide (preferences.version = some COOKIE_CONSENT_VERSION)
          && truthyNum preferences.timestamp)

/-- hasValidConsent from projects.test.js: the try body with the catch clause
returning false. -/
def hasValidConsent (store : Option StoredVal) : Bool :=
  match hasValidConsentTry store with
  | .ok b => b
  | .error _ => false

/-- Body of the try block of getConsentPreferences: read the key, return null
if nothing is stored, otherwise parse (which may throw), discard the record on
a version mismatch, and return it otherwise. -/
def getConsentPreferencesTry (store : Option StoredVal) :
    Except Unit (Option ParsedPrefs) :=
  match store with
  | none => .ok none
  | some stored => do
    let preferences ← jsonParse stored
    if preferences.version ≠ some COOKIE_CONSENT_VERSION then .ok none
    else .ok (some preferences)

/-- getConsentPreferences from projects.test.js: the try body with the catch
clause returning null. -/
def getConsentPreferences (store : Option StoredVal) : Option ParsedPrefs :=
  match getConsentPreferencesTry store with
  | .ok v => v
  | .error _ => none

/-- The record literal built inside saveConsentPreferences: all five fields
present, version the current schema version, timestamp the current time. -/
def mkPreferences (analytics marketing : Bool) (now : Nat) : ParsedPrefs :=
  ⟨some COOKIE_CONSENT_VERSION, some now, some analytics, some marketing, some true⟩

/-- What saveConsentPreferences leaves behind: the record it returns, the new
contents of the storage key, and whether console.warn fired. -/
structure SaveResult where
  returned : ParsedPrefs
  newStore : Option StoredVal
  warned : Bool
deriving DecidableEq, Repr

/-- saveConsentPreferences from projects.test.js. `writeFails` says whether
localStorage.setItem throws (quota / availability); on failure the store is
unchanged, a warning is logged, and the computed record is still returned. -/
def saveConsentPreferences (analytics marketing : Bool) (now : Nat)
    (store : Option StoredVal) (writeFails : Bool) : SaveResult :=
  let preferences := mkPreferences analytics marketing now
  if writeFails then ⟨preferences, store, true⟩
  else ⟨preferences, some (.json preferences), false⟩

/-- The object literal passed to gtag("consent", "update", ...): exactly these
four keys and no others. -/
structure GtagPayload where
  analytics_storage : String
  ad_storage : String
  ad_user_data : String
  ad_personalization : String
deriving DecidableEq, Repr

/-- One call to the gtag global: command, action, payload. -/
structure GtagCall where
  command : String
  action : String
  payload : GtagPayload
deriving DecidableEq, Repr

/-- updateGoogleConsent from projects.test.js. `gtagAvailable` is the
`typeof gtag === "function"` test; none means no call was issued. -/
def updateGoogleConsent (gtagAvailable : Bool) (analytics marketing : Bool) :
    Option GtagCall :=
  if gtagAvailable then
    some ⟨"consent", "update",
      ⟨if analytics then "granted" else "denied",
       if marketing then "granted" else "denied",
       if marketing then "granted" else "denied",
       if marketing then "granted" else "denied"⟩⟩
  else none

/-- The two consent checkboxes in the document; none means the element is
absent, some b means it is present with checked state b. -/
structure Checkboxes where
  analyticsBox : Option Bool
  marketingBox : Option Bool
deriving DecidableEq, Repr

/-- updateCheckboxes from projects.test.js: each checkbox is set only when its
element exists. The DOM coerces the assigned value to a boolean, so callers
passing a possibly-undefined field go through truthyBool first. -/
def updateCheckboxes (analytics marketing : Bool) (c : Checkboxes) : Checkboxes :=
  ⟨c.analyticsBox.map (fun _ => analytics), c.marketingBox.map (fun _ => marketing)⟩

/-- applyStoredConsent from projects.test.js: read the stored record; if one
came back, forward its analytics/marketing fields (JS-truthiness-coerced) to
updateGoogleConsent and the checkboxes; otherwise reset both checkboxes to
false and issue no gtag call. -/
def applyStoredConsent (store : Option StoredVal) (gtagAvailable : Bool)
    (c : Checkboxes) : Option GtagCall × Checkboxes :=
  match getConsentPreferences store with
  | some preferences =>
    (updateGoogleConsent gtagAvailable (truthyBool preferences.analytics)
        (truthyBool preferences.marketing),
     updateCheckboxes (truthyBool preferences.analytics)
        (truthyBool preferences.marketing) c)
  | none => (none, updateCheckboxes false false c)

/-- Page-load effects of initCookieConsent before the event listeners attach. -/
structure InitResult where
  gtagCall : Option GtagCall
  checkboxes : Checkboxes
  dialogScheduled : Bool
deriving DecidableEq, Repr

/-- The initialization body of initCookieConsent: apply any stored consent,
then schedule the dialog (setTimeout showCookieDialog 500) exactly when
hasValidConsent is false. -/
def initCookieConsent (store : Option StoredVal) (gtagAvailable : Bool)
    (c : Checkboxes) : InitResult :=
  let applied := applyStoredConsent store gtagAvailable c
  ⟨applied.1, applied.2, !hasValidConsent store⟩

/-- Effects of handleConsentChoice: the saved record and new store, whether the
save warned, and the gtag call issued (the dialog is then hidden). -/
structure ChoiceResult where
  saved : ParsedPrefs
  newStore : Option StoredVal
  warned : Bool
  gtagCall : Option GtagCall
deriving DecidableEq, Repr

/-- handleConsentChoice from projects.test.js: save the preferences, forward
them to updateGoogleConsent, hide the dialog. -/
def handleConsentChoice (analytics marketing : Bool) (now : Nat)
    (store : Option StoredVal) (writeFails gtagAvailable : Bool) : ChoiceResult :=
  let s := saveConsentPreferences analytics marketing now store writeFails
  ⟨s.returned, s.newStore, s.warned, updateGoogleConsent gtagAvailable analytics marketing⟩

/-- The Accept Selected click handler: read each checkbox if its element
exists, defaulting to false when it is absent
(`analyticsCheckbox ? analyticsCheckbox.checked : false`), then delegate to
handleConsentChoice. -/
def acceptSelectedClick (c : Checkboxes) (now : Nat) (store : Option StoredVal)
    (writeFails gtagAvailable : Bool) : ChoiceResult :=
  let analytics := match c.analyticsBox with
    | none => false
    | some checked => checked
  let marketing := match c.marketingBox with
    | none => false
    | some checked => checked
  handleConsentChoice analytics marketing now store writeFails gtagAvailable

/-! ## Theme manager (src/src/theme.js) -/

/-- The document and storage state the theme code touches: the root element's
data-theme attribute (getAttribute returns null when absent), two icon img
elements (none = element missing), the favicon link href (created on demand by
updateHeadIcon, so none only before it ever ran), the localStorage theme key,
and whether the system color-scheme change listener was registered. -/
structure ThemeDom where
  dataTheme : Option String
  githubIcon : Option String
  linkedinIcon : Option String
  favicon : Option String
  storedTheme : Option String
  subscribed : Bool
deriving DecidableEq, Repr

/-- updateGithubIcon: no-op when the element is missing, otherwise swap src. -/
def updateGithubIcon (theme : String) (d : ThemeDom) : ThemeDom :=
  match d.githubIcon with
  | none => d
  | some _ =>
    { d with githubIcon := some (if theme = "dark"
        then "/images/github-mark-white.svg" else "/images/github-mark.svg") }

/-- updateLinkedInIcon: no-op when the element is missing, otherwise swap src. -/
def updateLinkedInIcon (theme : String) (d : ThemeDom) : ThemeDom :=
  match d.linkedinIcon with
  | none => d
  | some _ =>
    { d with linkedinIcon := some (if theme = "dark"
        then "/images/InBug-White.png" else "/images/InBug-Black.png") }

/-- updateHeadIcon: the link element is created when absent, then its href set. -/
def updateHeadIcon (theme : String) (d : ThemeDom) : ThemeDom :=
  { d with favicon := some (if theme = "dark"
      then "/images/small/png/logo-small-light-t.png?v=dark"
      else "/images/small/png/logo-small-dark-t.png?v=light") }

/-- setTheme from theme.js: set the root data-theme attribute, update both
icons, update the favicon only on the non-manual path, and persist to
localStorage only on the manual path. -/
def setTheme (theme : String) (manual : Bool) (d : ThemeDom) : ThemeDom :=
  let d1 := { d with dataTheme := some theme }
  let d2 := updateLinkedInIcon theme (updateGithubIcon theme d1)
  let d3 := if !manual then updateHeadIcon theme d2 else d2
  if manual then { d3 with storedTheme := some theme } else d3

/-- window.toggleTheme: read the current data-theme attribute (null when the
attribute is absent) and set the opposite of dark, manually. -/
def toggleTheme (d : ThemeDom) : ThemeDom :=
  let current := d.dataTheme
  setTheme (if current = some "dark" then "light" else "dark") true d

/-- The system color-scheme change listener body: registered only when no
stored theme existed at load (subscribed), and on each event it re-checks
localStorage before applying the system theme non-manually. -/
def systemThemeChange (eMatches : Bool) (d : ThemeDom) : ThemeDom :=
  if d.subscribed then
    if d.storedTheme = none then
      setTheme (if eMatches then "dark" else "light") false d
    else d
  else d

/-- The DOMContentLoaded handler: resolve the initial theme as stored
preference, else the system signal; apply it non-manually; register the change
listener only when no stored preference existed. -/
def initTheme (systemDark : Bool) (d : ThemeDom) : ThemeDom :=
  let savedTheme := d.storedTheme
  let initialTheme := match savedTheme with
    | some t => t
    | none => if systemDark then "dark" else "light"
  let d1 := setTheme initialTheme false d
  { d1 with subscribed := savedTheme = none }

/-- The user-visible events after initialization: a manual toggle, or a system
color-scheme change notification. -/
inductive ThemeAction where
  | toggle
  | change (eMatches : Bool)
deriving DecidableEq, Repr

/-- One event dispatched against the theme manager. -/
def themeStep : ThemeAction → ThemeDom → ThemeDom
  | .toggle, d => toggleTheme d
  | .change eMatches, d => systemThemeChange eMatches d

/-- A sequence of events dispatched in order. -/
def themeRun (acts : List ThemeAction) (d : ThemeDom) : ThemeDom :=
  acts.foldl (fun s a => themeStep a s) d

/-! ## Navigation manager (src/src/navigation.js, anchor mode) -/

/-- The navHeight constant: `document.querySelector("nav")?.offsetHeight || 60`;
absent nav (undefined) and a zero height are both falsy, giving 60. -/
def resolveNavHeight : Option Int → Int
  | none => 60
  | some h => if h = 0 then 60 else h

/-- The delayed scroll of the anchor-link click handler: when the target
element exists, after the menu-close delay the page scrolls to
`Math.max(0, targetElement.offsetTop - navHeight - 10)`; when it does not
exist, no scroll is issued. -/
def anchorClickScroll (targetExists : Bool) (offsetTop navHeight : Int) :
    Option Int :=
  if targetExists then
    let targetTop := offsetTop - navHeight - 10
    some (max 0 targetTop)
  else none

/-! ## Concrete records and DOM states used by counterexamples and witnesses -/

/-- A stored record whose version matches the current schema but whose
timestamp field is absent (e.g. written by hand or by a buggy client). -/
def staleTimestampRecord : ParsedPrefs :=
  ⟨some "1.0", none, some true, some false, some true⟩

/-- A stored record carrying an outdated schema version. -/
def oldVersionRecord : ParsedPrefs :=
  ⟨some "0.5", some 5, some true, some false, some true⟩

/-- A document in which both consent checkboxes exist and are unchecked. -/
def bothCheckboxesPresent : Checkboxes := ⟨some false, some false⟩

/-- A fresh document: no data-theme attribute yet, both social icons present
with their light sources, no favicon link yet, nothing stored, listener on. -/
def unsetThemeDom : ThemeDom :=
  ⟨none, some "/images/github-mark.svg", some "/images/InBug-Black.png",
   none, none, true⟩

/-- A document whose root attribute is dark, nothing stored. -/
def darkThemeDom : ThemeDom :=
  ⟨some "dark", some "/images/github-mark-white.svg", some "/images/InBug-White.png",
   none, none, true⟩

/-! ## Helper lemmas about the theme manager -/

/-- Swapping the GitHub icon never touches the root attribute. -/
theorem updateGithubIcon_dataTheme (t : String) (d : ThemeDom) :
    (updateGithubIcon t d).dataTheme = d.dataTheme := by
  unfold updateGithubIcon
  cases h : d.githubIcon <;> simp

/-- Swapping the LinkedIn icon never touches the root attribute. -/
theorem updateLinkedInIcon_dataTheme (t : String) (d : ThemeDom) :
    (updateLinkedInIcon t d).dataTheme = d.dataTheme := by
  unfold updateLinkedInIcon
  cases h : d.linkedinIcon <;> simp

/-- setTheme always leaves the root attribute equal to its argument. -/
theorem setTheme_dataTheme (t : String) (manual : Bool) (d : ThemeDom) :
    (setTheme t manual d).dataTheme = some t := by
  unfold setTheme
  cases manual <;>
    simp [updateHeadIcon, updateLinkedInIcon_dataTheme, updateGithubIcon_dataTheme]

/-- The attribute after a toggle: the opposite of dark. -/
theorem toggleTheme_dataTheme (d : ThemeDom) :
    (toggleTheme d).dataTheme
      = some (if d.dataTheme = some "dark" then "light" else "dark") := by
  unfold toggleTheme
  exact setTheme_dataTheme _ _ _

/-- Swapping the GitHub icon never touches the stored preference. -/
theorem updateGithubIcon_storedTheme (t : String) (d : ThemeDom) :
    (updateGithubIcon t d).storedTheme = d.storedTheme := by
  unfold updateGithubIcon
  cases h : d.githubIcon <;> simp

/-- Swapping the LinkedIn icon never touches the stored preference. -/
theorem updateLinkedInIcon_storedTheme (t : String) (d : ThemeDom) :
    (updateLinkedInIcon t d).storedTheme = d.storedTheme := by
  unfold updateLinkedInIcon
  cases h : d.linkedinIcon <;> simp

/-- A manual setTheme persists its argument to localStorage. -/
theorem setTheme_manual_storedTheme (t : String) (d : ThemeDom) :
    (setTheme t true d).storedTheme = some t := by
  simp [setTheme]

/-- A manual toggle leaves a stored preference behind. -/
theorem toggleTheme_storedTheme_isSome (d : ThemeDom) :
    ((toggleTheme d).storedTheme).isSome = true := by
  unfold toggleTheme
  rw [setTheme_manual_storedTheme]
  rfl

/-- Once a preference is stored, a system color-scheme change event is a
complete no-op: the registered listener re-checks localStorage first. -/
theorem systemThemeChange_noop_of_stored (b : Bool) (d : ThemeDom)
    (h : (d.storedTheme).isSome = true) : systemThemeChange b d = d := by
  unfold systemThemeChange
  rcases hs : d.storedTheme with _ | t
  · rw [hs] at h
    exact absurd h (by simp)
  · simp [hs]

/-- Every event preserves the existence of a stored preference. -/
theorem themeStep_storedTheme_isSome (a : ThemeAction) (d : ThemeDom)
    (h : (d.storedTheme).isSome = true) :
    (((themeStep a d).storedTheme)).isSome = true := by
  cases a with
  | toggle => exact toggleTheme_storedTheme_isSome d
  | change b =>
    show ((systemThemeChange b d).storedTheme).isSome = true
    rw [systemThemeChange_noop_of_stored b d h]
    exact h

/-- Every event sequence preserves the existence of a stored preference. -/
theorem themeRun_storedTheme_isSome (acts : List ThemeAction) (d : ThemeDom)
    (h : (d.storedTheme).isSome = true) :
    ((themeRun acts d).storedTheme).isSome = true := by
  induction acts generalizing d with
  | nil => exact h
  | cons a rest ih => exact ih (themeStep a d) (themeStep_storedTheme_isSome a d h)

/-! ## Claim theorems -/

/-- C1: for all booleans a and m, saveConsentPreferences(a, m) followed by
getConsentPreferences() (with the storage write succeeding) returns a record
whose analytics field is a, whose marketing field is m, whose essential field
is true and whose version equals the current schema version. -/
theorem consent_save_get_roundtrip (a m : Bool) (now : Nat)
    (store : Option StoredVal) :
    getConsentPreferences (saveConsentPreferences a m now store false).newStore
      = some ((saveConsentPreferences a m now store false).returned)
    ∧ (saveConsentPreferences a m now store false).returned.analytics = some a
    ∧ (saveConsentPreferences a m now store false).returned.marketing = some m
    ∧ (saveConsentPreferences a m now store false).returned.essential = some true
    ∧ (saveConsentPreferences a m now store false).returned.version
        = some COOKIE_CONSENT_VERSION := by
  refine ⟨?_, rfl, rfl, rfl, rfl⟩
  simp [saveConsentPreferences, getConsentPreferences, getConsentPreferencesTry,
    jsonParse, mkPreferences, Bind.bind, Except.bind]

/-- C2 counterexample: a stored record that parses and whose version matches
the current schema version, yet hasValidConsent() returns false — the code
additionally requires a truthy timestamp field, which this record lacks. -/
theorem hasValidConsent_needs_timestamp_counterexample :
    staleTimestampRecord.version = some COOKIE_CONSENT_VERSION
    ∧ hasValidConsent (some (.json staleTimestampRecord)) = false := by
  constructor
  · rfl
  · rfl

/-- Modelled from the amended claim's words: hasValidConsent is true iff the
stored value parses as JSON, its version field equals the current schema
version, and its timestamp field is truthy (present and nonzero). -/
def hasValidConsentAmendedSpec (store : Option StoredVal) : Bool :=
  match store with
  | none => false
  | some .malformed => false
  | some (.json p) =>
    decide (p.version = some COOKIE_CONSENT_VERSION) && truthyNum p.timestamp

/-- C2 (amended): hasValidConsent() returns true if and only if the stored
value parses as JSON, its version equals the current schema version, and its
timestamp field is truthy; the other fields are irrelevant. -/
theorem hasValidConsent_iff_version_and_timestamp (store : Option StoredVal) :
    hasValidConsent store = hasValidConsentAmendedSpec store := by
  cases store with
  | none => rfl
  | some s => cases s <;> rfl

/-- C3: getConsentPreferences() returns none both when the stored value fails
to parse (the parse error is caught, never surfaced to the caller) and when
the parsed record's version differs from the current schema version; a
non-matching version also makes hasValidConsent() return false. -/
theorem getConsentPreferences_silent_discard (p : ParsedPrefs)
    (h : p.version ≠ some COOKIE_CONSENT_VERSION) :
    getConsentPreferencesTry (some .malformed) = .error ()
    ∧ getConsentPreferences (some .malformed) = none
    ∧ getConsentPreferences (some (.json p)) = none
    ∧ hasValidConsent (some (.json p)) = false := by
  refine ⟨rfl, rfl, ?_, ?_⟩
  · simp [getConsentPreferences, getConsentPreferencesTry, jsonParse, h,
      Bind.bind, Except.bind]
  · simp [hasValidConsent, hasValidConsentTry, jsonParse, h,
      Bind.bind, Except.bind]

/-- C3 witness: the discard behavior at a concrete outdated record. -/
theorem getConsentPreferences_silent_discard_witness :
    oldVersionRecord.version ≠ some COOKIE_CONSENT_VERSION
    ∧ getConsentPreferences (some (.json oldVersionRecord)) = none
    ∧ hasValidConsent (some (.json oldVersionRecord)) = false := by
  refine ⟨by decide, ?_, ?_⟩
  · exact (getConsentPreferences_silent_discard oldVersionRecord (by decide)).2.2.1
  · exact (getConsentPreferences_silent_discard oldVersionRecord (by decide)).2.2.2

/-- C4: when the storage write throws, saveConsentPreferences logs a warning,
leaves the store untouched, and still returns exactly the record a successful
write would have returned: version current, timestamp now, analytics a,
marketing m, essential true. -/
theorem saveConsentPreferences_write_failure (a m : Bool) (now : Nat)
    (store : Option StoredVal) :
    (saveConsentPreferences a m now store true).warned = true
    ∧ (saveConsentPreferences a m now store true).newStore = store
    ∧ (saveConsentPreferences a m now store true).returned
        = (saveConsentPreferences a m now store false).returned
    ∧ (saveConsentPreferences a m now store true).returned
        = ⟨some COOKIE_CONSENT_VERSION, some now, some a, some m, some true⟩ := by
  exact ⟨rfl, rfl, rfl, rfl⟩

/-- C5: the consent-update call carries exactly the four-key payload (the
GtagPayload structure has exactly these four fields): analytics storage driven
by the analytics flag, and ad storage, ad user data and ad personalization all
driven by the marketing flag, each granted when true and denied when false;
and when the gtag global is not a function, no call is issued and nothing is
thrown (the embedding is a total function returning none). -/
theorem updateGoogleConsent_payload_shape (a m : Bool) :
    (∃ call, updateGoogleConsent true a m = some call
      ∧ call.command = "consent"
      ∧ call.action = "update"
      ∧ call.payload.analytics_storage = (if a then "granted" else "denied")
      ∧ call.payload.ad_storage = (if m then "granted" else "denied")
      ∧ call.payload.ad_user_data = call.payload.ad_storage
      ∧ call.payload.ad_personalization = call.payload.ad_storage)
    ∧ updateGoogleConsent false a m = none := by
  refine ⟨⟨⟨"consent", "update",
    ⟨if a then "granted" else "denied", if m then "granted" else "denied",
     if m then "granted" else "denied", if m then "granted" else "denied"⟩⟩,
    rfl, rfl, rfl, rfl, rfl, rfl, rfl⟩, rfl⟩

/-- C6 counterexample: starting from a document whose root theme attribute is
absent, two toggles leave the attribute at "light", not back at absent — so
the double application is not an involution on every starting value. -/
theorem toggleTheme_twice_not_identity_on_absent :
    unsetThemeDom.dataTheme = none
    ∧ (toggleTheme (toggleTheme unsetThemeDom)).dataTheme = some "light"
    ∧ (toggleTheme (toggleTheme unsetThemeDom)).dataTheme ≠ unsetThemeDom.dataTheme := by
  refine ⟨rfl, by decide, by decide⟩

/-- C6 (amended): for a starting root theme attribute equal to "dark" or
"light", applying toggleTheme() twice returns the attribute to its original
value; an absent or off-enumeration starting value instead lands on "light". -/
theorem toggleTheme_twice_restores_valid_theme (d : ThemeDom)
    (h : d.dataTheme = some "dark" ∨ d.dataTheme = some "light") :
    (toggleTheme (toggleTheme d)).dataTheme = d.dataTheme := by
  rcases h with h | h <;> simp [toggleTheme_dataTheme, h]

/-- C6 witness: the amended involution evaluated on a concrete dark document. -/
theorem toggleTheme_twice_restores_valid_theme_witness :
    (darkThemeDom.dataTheme = some "dark" ∨ darkThemeDom.dataTheme = some "light")
    ∧ (toggleTheme (toggleTheme darkThemeDom)).dataTheme = darkThemeDom.dataTheme :=
  ⟨Or.inl rfl, toggleTheme_twice_restores_valid_theme darkThemeDom (Or.inl rfl)⟩

/-- C7: after a manual toggle (which persists the chosen theme), no later
system color-scheme change event — however many further toggles and change
events happen in between — ever changes the applied root theme attribute:
the listener re-checks storage and a stored preference now always exists. -/
theorem manual_toggle_disables_system_changes (d : ThemeDom)
    (acts : List ThemeAction) (b : Bool) :
    (themeStep (.change b) (themeRun acts (themeStep .toggle d))).dataTheme
      = (themeRun acts (themeStep .toggle d)).dataTheme := by
  have h1 : (((themeStep .toggle d).storedTheme)).isSome = true :=
    toggleTheme_storedTheme_isSome d
  have h2 : ((themeRun acts (themeStep .toggle d)).storedTheme).isSome = true :=
    themeRun_storedTheme_isSome acts _ h1
  show (systemThemeChange b _).dataTheme = _
  rw [systemThemeChange_noop_of_stored b _ h2]

/-- C8: in anchor mode, for every existing target the delayed scroll position
is exactly max(0, offsetTop − navHeight − 10) and is never negative; at
offset 1000 with nav height 60 it is 930, and at offset 0 it clamps to 0. -/
theorem anchor_scroll_position_formula (offsetTop navHeight : Int) :
    anchorClickScroll true offsetTop navHeight
      = some (max 0 (offsetTop - navHeight - 10))
    ∧ (anchorClickScroll true offsetTop navHeight).all (fun s => decide (0 ≤ s)) = true
    ∧ anchorClickScroll true 1000 60 = some 930
    ∧ anchorClickScroll true 0 60 = some 0 := by
  refine ⟨rfl, ?_, by decide, by decide⟩
  simp [anchorClickScroll, Option.all]

/-- C9: a stored record whose version matches but whose timestamp is absent is
returned by getConsentPreferences() yet rejected by hasValidConsent(), so page
load both applies the stored preferences (gtag consent update granting
analytics, denying marketing; checkboxes synced) and still schedules the
consent dialog. -/
theorem stale_timestamp_applies_consent_yet_reshows_dialog :
    getConsentPreferences (some (.json staleTimestampRecord))
      = some staleTimestampRecord
    ∧ hasValidConsent (some (.json staleTimestampRecord)) = false
    ∧ (initCookieConsent (some (.json staleTimestampRecord)) true
        bothCheckboxesPresent).gtagCall
      = some ⟨"consent", "update", ⟨"granted", "denied", "denied", "denied"⟩⟩
    ∧ (initCookieConsent (some (.json staleTimestampRecord)) true
        bothCheckboxesPresent).checkboxes = ⟨some true, some false⟩
    ∧ (initCookieConsent (some (.json staleTimestampRecord)) true
        bothCheckboxesPresent).dialogScheduled = true := by
  refine ⟨rfl, rfl, rfl, rfl, rfl⟩

/-- C10: when the Accept Selected control fires while a consent checkbox
element is absent, the handler (a total function — it cannot throw) treats the
missing checkbox as false: the returned record and, on a successful write, the
persisted record deny that category. -/
theorem acceptSelected_missing_checkbox_denies (mb ab : Option Bool) (now : Nat)
    (store : Option StoredVal) (writeFails gtagAvailable : Bool) :
    (acceptSelectedClick ⟨none, mb⟩ now store writeFails gtagAvailable).saved.analytics
      = some false
    ∧ (acceptSelectedClick ⟨ab, none⟩ now store writeFails gtagAvailable).saved.marketing
      = some false
    ∧ (acceptSelectedClick ⟨none, mb⟩ now store false gtagAvailable).newStore
      = some (.json ((acceptSelectedClick ⟨none, mb⟩ now store false gtagAvailable).saved))
    ∧ (acceptSelectedClick ⟨ab, none⟩ now store false gtagAvailable).newStore
      = some (.json ((acceptSelectedClick ⟨ab, none⟩ now store false gtagAvailable).saved)) := by
  cases writeFails <;> cases mb <;> cases ab <;>
    exact ⟨rfl, rfl, rfl, rfl⟩

end Website
